import Mathlib

/-!
Shallow embedding of the OpenSky load/jump allocation engine
(`backend/app/crud/jumps.py`, `backend/app/crud/loads.py`,
`backend/app/core/load_status_scheduler.py`) together with the theorems
settling the specification claims about it.

Conventions of the embedding:
* Machine integers are `Nat` (ids) and `Int` (seat arithmetic, which may go
  negative, and timestamps).  Timestamps are modelled in seconds, so
  `timedelta(minutes=5)` becomes `300`.
* The SQLAlchemy session is a `DB` structure holding the row lists; every
  query is a pure function over it.  `query(...).first()` is `List.find?`,
  `query(...).all()` is `List.filter`, and the `offset(skip).limit(limit)`
  applied by `CRUDJump.get_jumps` (defaults `skip=0`, `limit=100`) is
  `List.drop 0` / `List.take 100`.
* Code raising `HTTPException` is modelled with `Except Err`; since the
  Python functions raise before any mutation is flushed and the embedding is
  pure, an `.error` result carries no state and the caller's store is
  untouched, exactly as a rolled-back transaction.
* ORM relationship accesses (`load.aircraft`, `jump.jump_type`, `jump.user`)
  are explicit lookups; a dangling foreign key, which would crash Python
  with an `AttributeError`, is modelled as a 500 error.
* Python truthiness: `if not staff_user_id` treats both a missing key and a
  stored `0` as absent, and `a or b` on ints falls through on `0`; both are
  modelled explicitly (`truthyGet`, `orTruthy`).
-/

namespace OpenSky

/-- Modelled from the spec (§3) and its uses in the source: the `LoadStatus`
enum with members `FORMING`, `ON_CALL`, `DEPARTED` is referenced from
`core/load_status_scheduler.py`, `crud/loads.py` and `crud/jumps.py` but the
checked-out `models/enums.py` is a stale revision that does not carry it. -/
inductive LoadStatus where
  | FORMING
  | ON_CALL
  | DEPARTED
deriving DecidableEq, Repr

/-- Row of `users` (`models/users.py`); only the fields the allocation engine
reads are carried: the id and the names used for the staff-jump comment. -/
structure User where
  id : Nat
  first_name : String
  last_name : String
deriving DecidableEq, Repr

/-- Row of `aircraft` (`models/aircraft.py`): the engine reads only
`max_load`. -/
structure Aircraft where
  id : Nat
  max_load : Int
deriving DecidableEq, Repr

/-- Row of `additional_staff` (`models/jump_types.py`). The role enum value is
kept as the string interpolated into the "Staff user_id required" detail. -/
structure AdditionalStaff where
  id : Nat
  staff_required_role : String
  staff_default_jump_type_id : Option Nat
deriving DecidableEq, Repr

/-- Row of `jump_types` (`models/jump_types.py`) with its loaded
`additional_staff` relationship, the only parts the engine reads. -/
structure JumpType where
  id : Nat
  additional_staff : List AdditionalStaff
deriving DecidableEq, Repr

/-- Row of `jumps` (`models/jumps.py`).  `staff_assignments` is the map the
CRUD layer stores on the primary jump object (requirement id → user id;
Python keys are `str(id)`, a bijective image of the ids, so `Nat` keys are
used).  `jump_date` and `departure` share the timestamp scale. -/
structure Jump where
  id : Nat
  user_id : Nat
  jump_type_id : Nat
  is_manifested : Bool
  load_id : Option Nat
  reserved : Bool
  comment : Option String
  parent_jump_id : Option Nat
  jump_date : Option Int
  staff_assignments : Option (List (Nat × Nat))
  created_by : Option Nat
  updated_by : Option Nat
deriving DecidableEq, Repr

/-- Modelled from the spec (§3) and its uses in the source: the current
`Load` model (departure timestamp, `status`, aircraft reference,
`reserved_spaces`) is read by `crud/loads.py`, `crud/jumps.py` and the
scheduler, but the checked-out `models/loads.py` is a stale revision; the
fields are reconstructed from those uses. -/
structure Load where
  id : Nat
  departure : Int
  status : LoadStatus
  aircraft_id : Nat
  reserved_spaces : Int
  updated_by : Option Nat
deriving DecidableEq, Repr

/-- The backing store: one list of rows per table, plus the id the next
`INSERT` into `jumps` receives (autoincrement primary key). -/
structure DB where
  users : List User
  aircrafts : List Aircraft
  jump_types : List JumpType
  loads : List Load
  jumps : List Jump
  next_jump_id : Nat
deriving DecidableEq, Repr

/-- An `HTTPException(status_code, detail)`. -/
structure Err where
  status : Nat
  detail : String
deriving DecidableEq, Repr

/-! ### Query helpers (SQLAlchemy `query(...).first()` / `.all()`) -/

def findUser (db : DB) (uid : Nat) : Option User :=
  db.users.find? (fun u => u.id = uid)

def findAircraft (db : DB) (aid : Nat) : Option Aircraft :=
  db.aircrafts.find? (fun a => a.id = aid)

def findJumpType (db : DB) (tid : Nat) : Option JumpType :=
  db.jump_types.find? (fun t => t.id = tid)

def findLoad (db : DB) (lid : Nat) : Option Load :=
  db.loads.find? (fun l => l.id = lid)

def findJump (db : DB) (jid : Nat) : Option Jump :=
  db.jumps.find? (fun j => j.id = jid)

/-- `CRUDJump.get_jumps(db, filters={'load_id': lid})`: filter on
`Jump.load_id == lid` then `offset(0).limit(100)`. -/
def getJumpsByLoad (db : DB) (lid : Nat) : List Jump :=
  (db.jumps.filter (fun j => j.load_id = some lid)).take 100

/-- `CRUDJump.get_jumps(db, filters={'parent_jump_id': pid})`: filter on
`Jump.parent_jump_id == pid` then `offset(0).limit(100)`. -/
def getJumpsByParent (db : DB) (pid : Nat) : List Jump :=
  (db.jumps.filter (fun j => j.parent_jump_id = some pid)).take 100

/-! ### Status lifecycle scheduler (`core/load_status_scheduler.py`) -/

/-- Phase 1 filter of `update_load_statuses`: `status == FORMING`,
`departure <= five_min_later + 1min`, `departure >= five_min_later` where
`five_min_later = now + 5min`. -/
def formingWindow (now : Int) (l : Load) : Bool :=
  l.status = LoadStatus.FORMING ∧
    l.departure ≤ now + 300 + 60 ∧ now + 300 ≤ l.departure

/-- Phase 2 filter of `update_load_statuses`: `status != DEPARTED`,
`departure <= now + 1min`, `departure >= now`. -/
def departWindow (now : Int) (l : Load) : Bool :=
  l.status ≠ LoadStatus.DEPARTED ∧
    l.departure ≤ now + 60 ∧ now ≤ l.departure

/-- `update_load_statuses` evaluated at wall-clock time `now`
(`datetime.utcnow()`): first every `FORMING` load in the five-minute
lookahead band is set to `ON_CALL` via `crud_load.update_status`, then —
over the already updated session state — every not-yet-`DEPARTED` load
whose departure lies in `[now, now + 1min]` is set to `DEPARTED`. -/
def update_load_statuses (db : DB) (now : Int) : DB :=
  let loads1 := db.loads.map fun l =>
    if formingWindow now l then { l with status := LoadStatus.ON_CALL } else l
  let loads2 := loads1.map fun l =>
    if departWindow now l then { l with status := LoadStatus.DEPARTED } else l
  { db with loads := loads2 }

/-! ### Spaces info (`CRUDLoad.get_spaces_info`, `crud/loads.py`) -/

/-- Result record of `get_spaces_info`. -/
structure SpacesInfo where
  load_id : Nat
  total_spaces : Int
  reserved_spaces : Int
  occupied_public_spaces : Int
  occupied_reserved_spaces : Int
  remaining_public_spaces : Int
  remaining_reserved_spaces : Int
deriving DecidableEq, Repr

/-- `get_spaces_info(db, load)`: queries all jumps with `load_id == load.id`
(a plain `.all()`, no limit), partitions by `reserved`, and derives the
remaining counts from `load.aircraft.max_load` and `load.reserved_spaces`.
It only reads; the store is returned untouched by construction (the
function does not produce a `DB`).  A dangling `aircraft_id` would crash
Python on `load.aircraft.max_load`, hence the `Option`. -/
def get_spaces_info (db : DB) (load : Load) : Option SpacesInfo :=
  (findAircraft db load.aircraft_id).map fun ac =>
    let load_jumps := db.jumps.filter (fun j => j.load_id = some load.id)
    let occupied_public : Int := (load_jumps.filter (fun j => !j.reserved)).length
    let occupied_reserved : Int := (load_jumps.filter (fun j => j.reserved)).length
    { load_id := load.id
      total_spaces := ac.max_load
      reserved_spaces := load.reserved_spaces
      occupied_public_spaces := occupied_public
      occupied_reserved_spaces := occupied_reserved
      remaining_public_spaces := ac.max_load - load.reserved_spaces - occupied_public
      remaining_reserved_spaces := load.reserved_spaces - occupied_reserved }

/-! ### Assignment engine (`CRUDJump.assign_to_load` and helpers) -/

/-- `staff_assignments.get(str(staff_req.id))` followed by the
`if not staff_user_id` truthiness test: a missing map, a missing key and a
stored `0` all read as absent. -/
def truthyGet (sa : Option (List (Nat × Nat))) (reqId : Nat) : Option Nat :=
  match sa with
  | none => none
  | some m =>
    match m.lookup reqId with
    | none => none
    | some v => if v = 0 then none else some v

/-- Python `a or b` on an optional int: falls through to `b` when `a` is
`None` or `0`. -/
def orTruthy (a : Option Nat) (b : Nat) : Nat :=
  match a with
  | none => b
  | some v => if v = 0 then b else v

/-- `_get_validated_jump`: 404 when the jump id resolves to nothing. -/
def getValidatedJump (db : DB) (jump_id : Nat) : Except Err Jump :=
  match findJump db jump_id with
  | none => .error ⟨404, "Jump not found"⟩
  | some j => .ok j

/-- `_get_validated_load`: 404 when the load id resolves to nothing. -/
def getValidatedLoad (db : DB) (load_id : Nat) : Except Err Load :=
  match findLoad db load_id with
  | none => .error ⟨404, "Load not found"⟩
  | some l => .ok l

/-- `_validate_user_constraints`: reject when another jump of the same user
already sits on the target load, unless the jump itself is already on that
load (self re-assignment). -/
def validateUserConstraints (db : DB) (jump : Jump) (load_id : Nat) :
    Except Err Unit :=
  let user_in_load := db.jumps.find? fun j =>
    j.user_id = jump.user_id ∧ j.load_id = some load_id ∧ j.id ≠ jump.id
  if user_in_load.isSome ∧ jump.load_id ≠ some load_id then
    .error ⟨400, "User already has a jump in this load"⟩
  else
    .ok ()

/-- The staff-conflict f-string of `_validate_staff_assignments`, with its
`reservation_type` local. -/
def staffConflictMsg (suid : Nat) (reserved : Bool) : String :=
  let reservation_type := if reserved then "reserved" else "non-reserved"
  s!"Staff user {suid} already has a {reservation_type} jump in this load"

/-- The warning f-string of `_check_space_availability`. -/
def capacityWarning (pool : String) (remaining required : Int) : String :=
  s!"Load has only {remaining} available {pool} spaces but {required} are needed"

/-- `required_spaces = 1 + len(additional_staff_required)`. -/
def requiredSpaces (jt : JumpType) : Int :=
  1 + jt.additional_staff.length

/-- Occupied seats as `_check_space_availability` counts them: over
`get_jumps(filters={'load_id': load.id})` (which caps at 100 rows),
partitioned by the `reserved` flag.  Note the jump being (re-)assigned is
*not* excluded. -/
def occupiedSpaces (db : DB) (lid : Nat) (reserved : Bool) : Int :=
  ((getJumpsByLoad db lid).filter (fun j => j.reserved = reserved)).length

/-- `remaining_reserved_spaces = load.reserved_spaces - occupied_reserved`. -/
def remainingReserved (db : DB) (load : Load) : Int :=
  load.reserved_spaces - occupiedSpaces db load.id true

/-- `remaining_public_spaces = max_load - load.reserved_spaces -
occupied_public`. -/
def remainingPublic (db : DB) (load : Load) (ac : Aircraft) : Int :=
  ac.max_load - load.reserved_spaces - occupiedSpaces db load.id false

/-- `_check_space_availability`: never fails; returns the advisory warning
when the requested pool has fewer remaining seats than `required_spaces`. -/
def checkSpaceAvailability (db : DB) (load : Load) (ac : Aircraft)
    (jt : JumpType) (reserved : Bool) : Option String :=
  let required := requiredSpaces jt
  if reserved then
    if remainingReserved db load < required then
      some (capacityWarning "reserved" (remainingReserved db load) required)
    else none
  else
    if remainingPublic db load ac < required then
      some (capacityWarning "public" (remainingPublic db load ac) required)
    else none

/-- One staff requirement passing the `_validate_staff_assignments` loop
body without raising (predicate form, used to state theorems about calls
that reach a later requirement). -/
def passesStaffReq (db : DB) (jump : Jump) (load_id : Nat) (reserved : Bool)
    (sa : Option (List (Nat × Nat))) (req : AdditionalStaff) : Prop :=
  match truthyGet sa req.id with
  | none => jump.load_id ≠ none
  | some suid =>
    (findUser db suid).isSome ∧ suid ≠ jump.user_id ∧
      db.jumps.find? (fun j =>
        j.user_id = suid ∧ j.load_id = some load_id ∧ j.reserved = reserved)
        = none

instance (db : DB) (jump : Jump) (load_id : Nat) (reserved : Bool)
    (sa : Option (List (Nat × Nat))) (req : AdditionalStaff) :
    Decidable (passesStaffReq db jump load_id reserved sa req) := by
  unfold passesStaffReq
  cases truthyGet sa req.id <;> infer_instance

/-- The loop of `_validate_staff_assignments` over the jump type's
`additional_staff` list, in list order: a requirement with no (truthy)
assigned user raises 400 only on a first-ever assignment
(`jump.load_id` null) and is skipped otherwise; an assigned user must
exist (404), differ from the primary jump's user (400), and not already
hold a jump on the target load with the same `reserved` flag (400). -/
def validateStaffList (db : DB) (jump : Jump) (load_id : Nat)
    (reserved : Bool) (sa : Option (List (Nat × Nat))) :
    List AdditionalStaff → Except Err Unit
  | [] => .ok ()
  | req :: rest =>
    match truthyGet sa req.id with
    | none =>
      if jump.load_id = none then
        .error ⟨400, s!"Staff user_id required for role: {req.staff_required_role}"⟩
      else
        validateStaffList db jump load_id reserved sa rest
    | some suid =>
      if (findUser db suid).isSome = false then
        .error ⟨404, s!"Staff user {suid} not found"⟩
      else if suid = jump.user_id then
        .error ⟨400, "Staff user cannot be the same as the jump user"⟩
      else if (db.jumps.find? (fun j =>
          j.user_id = suid ∧ j.load_id = some load_id ∧
            j.reserved = reserved)).isSome then
        .error ⟨400, staffConflictMsg suid reserved⟩
      else
        validateStaffList db jump load_id reserved sa rest

/-- `_cleanup_existing_staff_jumps`: fetch the dependent jumps through
`get_jumps(filters={'parent_jump_id': jump_id})` — capped at 100 rows —
and delete exactly those rows. -/
def cleanupExistingStaffJumps (db : DB) (jump_id : Nat) : DB :=
  let staff := getJumpsByParent db jump_id
  { db with jumps := db.jumps.filter (fun j => ¬ (staff.map Jump.id).contains j.id) }

/-- `_assign_jump_to_load`: mutate the primary jump in place; `jump_date` is
stamped only when the load is already `DEPARTED`. -/
def assignJumpToLoad (jump : Jump) (load : Load) (reserved : Bool)
    (sa : Option (List (Nat × Nat))) (user_id : Nat) : Jump :=
  { jump with
    load_id := some load.id
    is_manifested := true
    reserved := reserved
    staff_assignments := sa
    updated_by := some user_id
    jump_date :=
      if load.status = LoadStatus.DEPARTED then some load.departure
      else jump.jump_date }

/-- The dependent jump row inserted by one iteration of
`_create_staff_jumps`: `nid` is the autoincrement id the `INSERT` assigns
(`db.flush()` materialises it). -/
def newStaffJump (nid : Nat) (jump : Jump) (juser : User) (load : Load)
    (reserved : Bool) (user_id suid : Nat) (req : AdditionalStaff) : Jump :=
  { id := nid
    user_id := suid
    jump_type_id := orTruthy req.staff_default_jump_type_id jump.jump_type_id
    is_manifested := true
    load_id := some load.id
    reserved := reserved
    comment := some s!"Staff for {juser.first_name} {juser.last_name}"
    parent_jump_id := some jump.id
    jump_date :=
      if load.status = LoadStatus.DEPARTED then some load.departure
      else none
    staff_assignments := none
    created_by := some user_id
    updated_by := none }

/-- `_create_staff_jumps`: walk the staff requirements in order and, for each
one with a (truthy) assigned user, insert a dependent jump mirroring the
load, `reserved` flag and (for departed loads) `jump_date`, with
`parent_jump_id = jump.id` and the default or parent jump type.  Returns
the updated store and the new ids in creation order. -/
def createStaffJumps (db : DB) (jump : Jump) (juser : User) (load : Load)
    (reserved : Bool) (sa : Option (List (Nat × Nat))) (user_id : Nat) :
    List AdditionalStaff → DB × List Nat
  | [] => (db, [])
  | req :: rest =>
    match truthyGet sa req.id with
    | none => createStaffJumps db jump juser load reserved sa user_id rest
    | some suid =>
      let staffJump := newStaffJump db.next_jump_id jump juser load reserved user_id suid req
      let db1 : DB :=
        { db with jumps := db.jumps ++ [staffJump], next_jump_id := db.next_jump_id + 1 }
      let rest_res := createStaffJumps db1 jump juser load reserved sa user_id rest
      (rest_res.1, db.next_jump_id :: rest_res.2)

/-- The session state after the conditional
`_cleanup_existing_staff_jumps` step of `assign_to_load`: the cleanup runs
only when the jump is already on this very load. -/
def dbAfterCleanup (db : DB) (jump : Jump) (jump_id load_id : Nat) : DB :=
  if jump.load_id = some load_id then cleanupExistingStaffJumps db jump_id else db

/-- The session state after `_assign_jump_to_load` mutated the primary row
in place. -/
def dbWithPrimaryAssigned (db : DB) (jump jump1 : Jump) : DB :=
  { db with jumps := db.jumps.map (fun x => if x.id = jump.id then jump1 else x) }

/-- Result record of `assign_to_load` (the `success` key is always `True`
when the call returns). -/
structure AssignResult where
  message : String
  warning : Option String
  assigned_jump_ids : List Nat
deriving DecidableEq, Repr

/-- `assign_to_load(db, jump_id, load_id, reserved, staff_assignments,
user_id)`, step for step:
1. resolve and validate the jump and the load (404s);
2. resolve the joined relationship rows (`load.aircraft`,
   `jump.jump_type`, `jump.user`; a dangling key crashes Python → 500);
3. `_validate_user_constraints`;
4. `_check_space_availability` — advisory only, yields the warning;
5. `_validate_staff_assignments`;
6. `_cleanup_existing_staff_jumps`, but only when the jump is already on
   this very load;
7. `_assign_jump_to_load` on the primary row;
8. `_create_staff_jumps`;
9. commit and return the primary id plus the created dependent ids. -/
def assign_to_load (db : DB) (jump_id load_id : Nat) (reserved : Bool)
    (sa : Option (List (Nat × Nat))) (user_id : Nat) :
    Except Err (DB × AssignResult) :=
  match getValidatedJump db jump_id with
  | .error e => .error e
  | .ok jump =>
  match getValidatedLoad db load_id with
  | .error e => .error e
  | .ok load =>
  match findAircraft db load.aircraft_id with
  | none => .error ⟨500, "Internal Server Error"⟩
  | some ac =>
  match findJumpType db jump.jump_type_id with
  | none => .error ⟨500, "Internal Server Error"⟩
  | some jt =>
  match findUser db jump.user_id with
  | none => .error ⟨500, "Internal Server Error"⟩
  | some juser =>
  match validateUserConstraints db jump load_id with
  | .error e => .error e
  | .ok _ =>
  let warning := checkSpaceAvailability db load ac jt reserved
  match validateStaffList db jump load_id reserved sa jt.additional_staff with
  | .error e => .error e
  | .ok _ =>
  let jump1 := assignJumpToLoad jump load reserved sa user_id
  let db2 := dbWithPrimaryAssigned (dbAfterCleanup db jump jump_id load_id) jump jump1
  let created :=
    createStaffJumps db2 jump1 juser load reserved sa user_id jt.additional_staff
  .ok (created.1,
    { message := s!"Jump assigned to load {load_id}"
      warning := warning
      assigned_jump_ids := jump_id :: created.2 })

/-! ### Removal engine (`CRUDJump.remove_from_load`) -/

/-- Result record of `remove_from_load`. -/
structure RemoveResult where
  message : String
  removed_jump_ids : List Nat
deriving DecidableEq, Repr

/-- `remove_from_load(db, jump_id, user_id, clear_staff_assignments)`:
404 when the jump is missing, 400 when it has no load; otherwise delete the
dependent jumps fetched through `get_jumps(filters={'parent_jump_id':
jump_id})` (capped at 100 rows), clear the primary's load linkage
(`reserved := false`, `jump_date := None`, `is_manifested` stays `True`),
optionally null the stored staff map, and return the removed ids — the
primary's first, then the fetched dependents in order. -/
def remove_from_load (db : DB) (jump_id user_id : Nat)
    (clear_staff_assignments : Bool) : Except Err (DB × RemoveResult) :=
  match getValidatedJump db jump_id with
  | .error e => .error e
  | .ok jump =>
  if jump.load_id = none then
    .error ⟨400, "Jump is not assigned to any load"⟩
  else
    let child_jumps := getJumpsByParent db jump_id
    let removed_jump_ids := jump_id :: child_jumps.map Jump.id
    let db1 : DB :=
      { db with jumps := db.jumps.filter (fun j => ¬ (child_jumps.map Jump.id).contains j.id) }
    let jump1 : Jump :=
      { jump with
        load_id := none
        is_manifested := true
        reserved := false
        jump_date := none
        updated_by := some user_id
        staff_assignments :=
          if clear_staff_assignments then none else jump.staff_assignments }
    let db2 : DB :=
      { db1 with jumps := db1.jumps.map (fun x => if x.id = jump.id then jump1 else x) }
    .ok (db2, { message := "Jump removed from load", removed_jump_ids := removed_jump_ids })

/-! ### Fixture builders -/

/-- A load row with the audit field cleared. -/
def mkLoad (id : Nat) (departure : Int) (status : LoadStatus)
    (aircraft_id : Nat) (reserved_spaces : Int) : Load :=
  { id := id, departure := departure, status := status,
    aircraft_id := aircraft_id, reserved_spaces := reserved_spaces,
    updated_by := none }

/-- An unassigned jump row (column defaults of `models/jumps.py`). -/
def mkJump (id user_id jump_type_id : Nat) : Jump :=
  { id := id, user_id := user_id, jump_type_id := jump_type_id,
    is_manifested := false, load_id := none, reserved := false,
    comment := none, parent_jump_id := none, jump_date := none,
    staff_assignments := none, created_by := none, updated_by := none }

/-! ### C1 — scheduler and past departure times -/

/-- Three loads at tick time `now = 0`: one `FORMING` whose departure passed
two minutes ago, one `FORMING` departing exactly now, one long
`DEPARTED`. -/
def dbC1 : DB :=
  { users := [], aircrafts := [⟨1, 4⟩], jump_types := [],
    loads :=
      [ mkLoad 1 (-120) LoadStatus.FORMING 1 0,
        mkLoad 2 0 LoadStatus.FORMING 1 0,
        mkLoad 3 (-600) LoadStatus.DEPARTED 1 0 ],
    jumps := [], next_jump_id := 1 }

/-- C1: the claim says every not-yet-departed load whose departure time is
earlier than or equal to the current time becomes `DEPARTED` on one tick.
The code's phase-2 filter (`load_status_scheduler.py` line 32) demands
`departure >= now`, contradicting its own comment "Set any load to
DEPARTED if departure time has passed": load 1, departed two minutes ago,
stays `FORMING`, while load 2 (departure exactly `now`) does transition and
the already-`DEPARTED` load 3 is left unchanged. -/
theorem C1_past_departure_left_forming :
    (update_load_statuses dbC1 0).loads.map Load.status =
      [LoadStatus.FORMING, LoadStatus.DEPARTED, LoadStatus.DEPARTED] := by
  decide

/-! ### C8 — scheduler and the ON_CALL lookahead window -/

/-- Two `FORMING` loads at tick time `now = 0`: one departing in 4 minutes,
one departing in exactly 5 minutes. -/
def dbC8 : DB :=
  { users := [], aircrafts := [⟨1, 4⟩], jump_types := [],
    loads :=
      [ mkLoad 1 240 LoadStatus.FORMING 1 0,
        mkLoad 2 300 LoadStatus.FORMING 1 0 ],
    jumps := [], next_jump_id := 1 }

/-- C8: the claim (and the spec scenario) says a `FORMING` load departing in
4 minutes is within the 5-minute lookahead and moves to `ON_CALL` on one
tick.  The code's phase-1 filter (`load_status_scheduler.py` line 22)
demands `departure >= now + 5min`, contradicting its own comment "Set
loads in FORMING to ON_CALL if within 5 minutes of departure": the load
departing in 4 minutes stays `FORMING`; only the one departing in
5 minutes (the `[now+5min, now+6min]` band) transitions. -/
theorem C8_four_minute_lookahead_left_forming :
    (update_load_statuses dbC8 0).loads.map Load.status =
      [LoadStatus.FORMING, LoadStatus.ON_CALL] := by
  decide

/-! ### C9 — `get_spaces_info` -/

/-- Splitting a filtered count by a second Boolean predicate. -/
theorem length_filter_partition {α : Type} (l : List α) (p q : α → Bool) :
    (l.filter (fun a => p a && q a)).length
      + (l.filter (fun a => p a && !q a)).length
      = (l.filter p).length := by
  induction l with
  | nil => rfl
  | cons a t ih =>
    by_cases hp : p a = true <;> by_cases hq : q a = true <;>
      simp [List.filter_cons, hp, hq] <;> omega

/-- C9: for every load whose aircraft exists, `get_spaces_info` returns
`occupied_public`/`occupied_reserved` equal to the counts of jumps with that
`load_id` partitioned by the `reserved` flag — so their sum is the live jump
count of the load — and the remaining counts
`max_load - reserved_spaces - occupied_public` and
`reserved_spaces - occupied_reserved`.  The function reads the store and
returns a record only, so no state is mutated. -/
theorem C9_spaces_info_partition (db : DB) (load : Load) (ac : Aircraft)
    (hac : findAircraft db load.aircraft_id = some ac) :
    ∃ info, get_spaces_info db load = some info ∧
      info.occupied_public_spaces =
        ((db.jumps.filter fun j =>
          decide (j.load_id = some load.id) && !(j.reserved)).length : Int) ∧
      info.occupied_reserved_spaces =
        ((db.jumps.filter fun j =>
          decide (j.load_id = some load.id) && j.reserved).length : Int) ∧
      info.occupied_public_spaces + info.occupied_reserved_spaces =
        ((db.jumps.filter fun j => decide (j.load_id = some load.id)).length : Int) ∧
      info.remaining_public_spaces =
        ac.max_load - load.reserved_spaces - info.occupied_public_spaces ∧
      info.remaining_reserved_spaces =
        load.reserved_spaces - info.occupied_reserved_spaces := by
  unfold get_spaces_info
  rw [hac]
  refine ⟨_, rfl, ?_, ?_, ?_, rfl, rfl⟩
  · simp only [List.filter_filter]
    norm_cast
    congr 1
    apply List.filter_congr
    intro j _
    rw [Bool.and_comm]
  · simp only [List.filter_filter]
    norm_cast
    congr 1
    apply List.filter_congr
    intro j _
    rw [Bool.and_comm]
  · simp only [List.filter_filter]
    norm_cast
    have h1 : (db.jumps.filter fun a => !a.reserved && decide (a.load_id = some load.id))
        = db.jumps.filter fun a => decide (a.load_id = some load.id) && !a.reserved := by
      apply List.filter_congr
      intro j _
      rw [Bool.and_comm]
    have h2 : (db.jumps.filter fun a => a.reserved && decide (a.load_id = some load.id))
        = db.jumps.filter fun a => decide (a.load_id = some load.id) && a.reserved := by
      apply List.filter_congr
      intro j _
      rw [Bool.and_comm]
    rw [h1, h2, Nat.add_comm]
    exact length_filter_partition db.jumps _ (fun j => j.reserved)

/-- Concrete instance for `C9_spaces_info_partition`: a load with one public
and two reserved jumps on a 4-seat aircraft with one reserved seat. -/
def dbC9 : DB :=
  { users := [], aircrafts := [⟨1, 4⟩], jump_types := [⟨1, []⟩],
    loads := [mkLoad 1 1000 LoadStatus.FORMING 1 1],
    jumps :=
      [ { mkJump 1 1 1 with load_id := some 1, reserved := false },
        { mkJump 2 2 1 with load_id := some 1, reserved := true },
        { mkJump 3 3 1 with load_id := some 1, reserved := true },
        mkJump 4 4 1 ],
    next_jump_id := 5 }

/-- Witness for `C9_spaces_info_partition` at `dbC9`. -/
theorem C9_spaces_info_partition_witness :
    ∃ info, get_spaces_info dbC9 (mkLoad 1 1000 LoadStatus.FORMING 1 1) = some info ∧
      info.occupied_public_spaces =
        ((dbC9.jumps.filter fun j =>
          decide (j.load_id = some 1) && !(j.reserved)).length : Int) ∧
      info.occupied_reserved_spaces =
        ((dbC9.jumps.filter fun j =>
          decide (j.load_id = some 1) && j.reserved).length : Int) ∧
      info.occupied_public_spaces + info.occupied_reserved_spaces =
        ((dbC9.jumps.filter fun j => decide (j.load_id = some 1)).length : Int) ∧
      info.remaining_public_spaces = 4 - 1 - info.occupied_public_spaces ∧
      info.remaining_reserved_spaces = 1 - info.occupied_reserved_spaces :=
  C9_spaces_info_partition dbC9 (mkLoad 1 1000 LoadStatus.FORMING 1 1) ⟨1, 4⟩ (by decide)

/-! ### C4 — the advisory capacity figures and the jump being re-assigned -/

/-- Result observers: the warning of a successful `assign_to_load`. -/
def okWarning : Except Err (DB × AssignResult) → Option String
  | .ok (_, res) => res.warning
  | .error _ => none

/-- Result observers: the returned ids of a successful `assign_to_load`. -/
def okIds : Except Err (DB × AssignResult) → Option (List Nat)
  | .ok (_, res) => some res.assigned_jump_ids
  | .error _ => none

/-- Result observers: the store after a successful `assign_to_load`. -/
def okDB : Except Err (DB × AssignResult) → Option DB
  | .ok (db, _) => some db
  | .error _ => none

/-- Modelled from the spec: §4.2 step 4 prescribes running the capacity
calculator "over the load's current jumps (excluding the jump being
(re-)assigned, to permit moving within the same load)"; this is that
excluded occupied count, to be compared with the source's
`occupiedSpaces`. -/
def occupiedSpacesExclSpec (db : DB) (lid : Nat) (reserved : Bool)
    (jid : Nat) : Int :=
  (db.jumps.filter (fun j =>
    j.load_id = some lid ∧ j.id ≠ jid ∧ j.reserved = reserved)).length

/-- Modelled from the spec: the advisory check as §4.2 describes it, with
the jump being (re-)assigned excluded from the occupied figures. -/
def checkSpaceAvailabilitySpec (db : DB) (load : Load) (ac : Aircraft)
    (jt : JumpType) (reserved : Bool) (jid : Nat) : Option String :=
  let required := requiredSpaces jt
  if reserved then
    let remaining := load.reserved_spaces - occupiedSpacesExclSpec db load.id true jid
    if remaining < required then some (capacityWarning "reserved" remaining required)
    else none
  else
    let remaining := ac.max_load - load.reserved_spaces
      - occupiedSpacesExclSpec db load.id false jid
    if remaining < required then some (capacityWarning "public" remaining required)
    else none

/-- A one-seat aircraft whose single seat is held by jump 1, already on
load 1. -/
def dbC4 : DB :=
  { users := [⟨1, "Ann", "Ash"⟩], aircrafts := [⟨1, 1⟩],
    jump_types := [⟨1, []⟩],
    loads := [mkLoad 1 1000 LoadStatus.FORMING 1 0],
    jumps := [{ mkJump 1 1 1 with load_id := some 1, is_manifested := true }],
    next_jump_id := 2 }

/-- C4 counterexample: re-assigning jump 1 within load 1 on `dbC4`.  The
claim says the advisory figures exclude the jump being re-assigned, under
which the lone seat would read free (the spec-modelled check returns no
warning); the code counts the jump against itself and the call comes back
with a capacity warning. -/
theorem C4_counterexample :
    (okWarning (assign_to_load dbC4 1 1 false none 9)).isSome = true ∧
      checkSpaceAvailabilitySpec dbC4 (mkLoad 1 1000 LoadStatus.FORMING 1 0)
        ⟨1, 1⟩ ⟨1, []⟩ false 1 = none := by
  decide

/-- Counting a filtered list after removing the unique element with a given
key: if `x` matches `p`, dropping `key a ≠ key x` costs exactly one. -/
theorem length_filter_erase_key {α : Type} (key : α → Nat) :
    ∀ (l : List α) (x : α), x ∈ l → (l.map key).Nodup →
      ∀ p : α → Bool, p x = true →
        (l.filter p).length
          = (l.filter (fun a => p a && decide (key a ≠ key x))).length + 1 := by
  intro l
  induction l with
  | nil => intro x hx; cases hx
  | cons a t ih =>
    intro x hx hnd p hpx
    rw [List.map_cons, List.nodup_cons] at hnd
    rcases List.mem_cons.mp hx with rfl | hxt
    · have ht : ∀ b ∈ t, (p b && decide (key b ≠ key x)) = p b := by
        intro b hb
        have hne : key b ≠ key x := fun h => hnd.1 (h ▸ List.mem_map_of_mem key hb)
        simp [hne]
      rw [List.filter_cons, List.filter_cons, List.filter_congr ht]
      simp [hpx]
    · have hax : key a ≠ key x :=
        fun h => hnd.1 (h ▸ List.mem_map_of_mem key hxt)
      have hrec := ih x hxt hnd.2 p hpx
      rw [List.filter_cons, List.filter_cons]
      by_cases hpa : p a = true
      · simp only [hpa, hax, ne_eq, decide_not, Bool.true_and]
        simp only [decide_eq_false_iff_not, Bool.not_eq_true'] at *
        simp [hax, hrec]
      · have hpa' : p a = false := by revert hpa; cases p a <;> simp
        simp [hpa', hrec]

/-- C4 amended: the occupied figure that `_check_space_availability` feeds
into the advisory warning is computed over all jumps currently pointing at
the load, with no exclusion of the jump being (re-)assigned — when that
jump is already on the target load, its own partition's occupied count is
exactly one more than the spec-prescribed excluded count, so a jump moved
within its load does count against itself.  (The hypotheses: the jump is a
live row of the store, primary keys are unique, and the load has at most
100 jumps so the query cap is not hit.) -/
theorem C4_occupied_includes_self (db : DB) (load : Load) (jump : Jump)
    (hmem : jump ∈ db.jumps)
    (hload : jump.load_id = some load.id)
    (hnodup : (db.jumps.map Jump.id).Nodup)
    (hlen : (db.jumps.filter (fun j => j.load_id = some load.id)).length ≤ 100) :
    occupiedSpaces db load.id jump.reserved
      = occupiedSpacesExclSpec db load.id jump.reserved jump.id + 1 := by
  unfold occupiedSpaces occupiedSpacesExclSpec getJumpsByLoad
  rw [List.take_of_length_le hlen, List.filter_filter]
  have hkey := length_filter_erase_key Jump.id db.jumps jump hmem hnodup
    (fun j => decide (j.reserved = jump.reserved) && decide (j.load_id = some load.id))
    (by simp [hload])
  rw [hkey]
  have hcong : ∀ b ∈ db.jumps,
      ((decide (b.reserved = jump.reserved) && decide (b.load_id = some load.id))
          && decide (b.id ≠ jump.id))
        = decide (b.load_id = some load.id ∧ b.id ≠ jump.id
            ∧ b.reserved = jump.reserved) := by
    intro b _
    by_cases h1 : b.reserved = jump.reserved <;>
      by_cases h2 : b.load_id = some load.id <;>
        by_cases h3 : b.id = jump.id <;> simp [h1, h2, h3]
  rw [List.filter_congr hcong]
  push_cast
  ring

/-- Witness for `C4_occupied_includes_self` on `dbC4`: the sole public jump
on load 1 yields a code-side occupied count of 1 versus a spec-side
(excluded) count of 0. -/
theorem C4_occupied_includes_self_witness :
    occupiedSpaces dbC4 1 false = occupiedSpacesExclSpec dbC4 1 false 1 + 1 :=
  C4_occupied_includes_self dbC4 (mkLoad 1 1000 LoadStatus.FORMING 1 0)
    { mkJump 1 1 1 with load_id := some 1, is_manifested := true }
    (by decide) (by decide) (by decide) (by decide)

/-! ### Inversion helpers for the lookup layer -/

/-- A successful `findJump` returns a live row carrying the requested id. -/
theorem findJump_mem {db : DB} {jid : Nat} {j : Jump}
    (h : findJump db jid = some j) : j ∈ db.jumps ∧ j.id = jid := by
  unfold findJump at h
  refine ⟨List.mem_of_find?_eq_some h, ?_⟩
  have := List.find?_some h
  simpa using this

/-- `_get_validated_jump` succeeds exactly on a successful lookup. -/
theorem getValidatedJump_ok {db : DB} {jid : Nat} {j : Jump}
    (h : getValidatedJump db jid = .ok j) : findJump db jid = some j := by
  unfold getValidatedJump at h
  cases hf : findJump db jid with
  | none => rw [hf] at h; cases h
  | some v => rw [hf] at h; cases h; rfl

/-- `_get_validated_load` succeeds exactly on a successful lookup. -/
theorem getValidatedLoad_ok {db : DB} {lid : Nat} {l : Load}
    (h : getValidatedLoad db lid = .ok l) : findLoad db lid = some l := by
  unfold getValidatedLoad at h
  cases hf : findLoad db lid with
  | none => rw [hf] at h; cases h
  | some v => rw [hf] at h; cases h; rfl

/-- A successful `findLoad` returns a row carrying the requested id. -/
theorem findLoad_mem {db : DB} {lid : Nat} {l : Load}
    (h : findLoad db lid = some l) : l ∈ db.loads ∧ l.id = lid := by
  unfold findLoad at h
  refine ⟨List.mem_of_find?_eq_some h, ?_⟩
  have := List.find?_some h
  simpa using this

/-! ### C6 — `remove_from_load` -/

/-- Result observers: the removed ids of a successful `remove_from_load`. -/
def remOkIds : Except Err (DB × RemoveResult) → Option (List Nat)
  | .ok (_, res) => some res.removed_jump_ids
  | .error _ => none

/-- Result observers: the store after a successful `remove_from_load`. -/
def remOkDB : Except Err (DB × RemoveResult) → Option DB
  | .ok (db, _) => some db
  | .error _ => none

/-- A dependent staff jump of jump 1 on load 1. -/
def c6child (k : Nat) : Jump :=
  { mkJump k k 1 with
    load_id := some 1
    parent_jump_id := some 1
    is_manifested := true }

/-- A primary jump on load 1 with 101 dependent staff jumps (ids 2–102). -/
def dbC6big : DB :=
  { users := [], aircrafts := [⟨1, 200⟩], jump_types := [⟨1, []⟩],
    loads := [mkLoad 1 1000 LoadStatus.FORMING 1 0],
    jumps := { mkJump 1 1 1 with load_id := some 1, is_manifested := true }
      :: (List.range 101).map (fun k => c6child (k + 2)),
    next_jump_id := 103 }

/-- C6 counterexample: the claim promises, for *every* assigned jump with K
dependents, exactly K+1 removed ids and no surviving dependent.  The code
reads the dependents through `get_jumps`, whose default `limit=100` caps
the query: with K = 101 dependents the call returns 101 ids (not 102) and
one jump with `parent_jump_id = 1` survives. -/
theorem C6_counterexample :
    (dbC6big.jumps.filter (fun j => j.parent_jump_id = some 1)).length = 101 ∧
    (remOkIds (remove_from_load dbC6big 1 9 false)).map List.length = some 101 ∧
    (remOkDB (remove_from_load dbC6big 1 9 false)).map
        (fun db => (db.jumps.filter (fun j => j.parent_jump_id = some 1)).length)
      = some 1 := by
  decide

/-- C6 amended: `remove_from_load` on a jump with no `load_id` always fails
with the 400 Validation error and changes nothing (an `.error` result
carries no store); on an assigned jump with K ≤ 100 dependent jumps it
returns exactly K+1 removed ids and afterwards no jump with that
`parent_jump_id` remains.  (The bound K ≤ 100 is forced by the `limit=100`
query default exhibited in the counterexample.) -/
theorem C6_remove_from_load (db : DB) (jump_id user_id : Nat) (clear : Bool)
    (jump : Jump) (hj : getValidatedJump db jump_id = .ok jump) :
    (jump.load_id = none →
      remove_from_load db jump_id user_id clear
        = .error ⟨400, "Jump is not assigned to any load"⟩) ∧
    (jump.load_id ≠ none →
      (db.jumps.filter (fun j => j.parent_jump_id = some jump_id)).length ≤ 100 →
      ∃ db' res, remove_from_load db jump_id user_id clear = .ok (db', res) ∧
        res.removed_jump_ids.length
          = (db.jumps.filter (fun j => j.parent_jump_id = some jump_id)).length + 1 ∧
        ∀ j ∈ db'.jumps, j.parent_jump_id ≠ some jump_id) := by
  have hfind := getValidatedJump_ok hj
  have hmem := (findJump_mem hfind).1
  constructor
  · intro hnone
    simp [remove_from_load, hj, hnone]
  · intro hsome hK
    have htake : getJumpsByParent db jump_id
        = db.jumps.filter (fun j => j.parent_jump_id = some jump_id) := by
      unfold getJumpsByParent
      exact List.take_of_length_le hK
    rw [remove_from_load]
    simp only [hj, hsome, ite_false, if_false]
    refine ⟨_, _, rfl, ?_, ?_⟩
    · simp [htake]
    · intro j hjmem
      simp only [List.mem_map] at hjmem
      obtain ⟨j0, hj0mem, rfl⟩ := hjmem
      obtain ⟨hj0db, hkeep⟩ := List.mem_filter.mp hj0mem
      simp only [decide_not, Bool.not_eq_true', decide_eq_false_iff_not] at hkeep
      have hkeep' : j0.id ∉ (getJumpsByParent db jump_id).map Jump.id := by
        intro hc
        exact hkeep (by simpa using hc)
      by_cases hid : j0.id = jump.id
      · rw [if_pos hid]
        intro hpar
        apply hkeep'
        rw [htake, hid]
        exact List.mem_map_of_mem Jump.id
          (List.mem_filter.mpr ⟨hmem, by simpa using hpar⟩)
      · rw [if_neg hid]
        intro hpar
        apply hkeep'
        rw [htake]
        exact List.mem_map_of_mem Jump.id
          (List.mem_filter.mpr ⟨hj0db, by simpa using hpar⟩)

/-- A load with a primary jump (two dependents, ids 2 and 3) and an
unassigned jump 4. -/
def dbC6 : DB :=
  { users := [], aircrafts := [⟨1, 4⟩], jump_types := [⟨1, []⟩],
    loads := [mkLoad 1 1000 LoadStatus.FORMING 1 0],
    jumps :=
      [ { mkJump 1 1 1 with load_id := some 1, is_manifested := true },
        c6child 2, c6child 3, mkJump 4 4 1 ],
    next_jump_id := 5 }

/-- Witness for `C6_remove_from_load` on `dbC6`: removing unassigned jump 4
fails Validation; removing jump 1 (two dependents) succeeds with 3 removed
ids and no dependent of jump 1 remains. -/
theorem C6_remove_from_load_witness :
    (remove_from_load dbC6 4 9 false
      = .error ⟨400, "Jump is not assigned to any load"⟩) ∧
    (∃ db' res, remove_from_load dbC6 1 9 false = .ok (db', res) ∧
      res.removed_jump_ids.length
        = (dbC6.jumps.filter (fun j => j.parent_jump_id = some 1)).length + 1 ∧
      ∀ j ∈ db'.jumps, j.parent_jump_id ≠ some 1) :=
  ⟨(C6_remove_from_load dbC6 4 9 false (mkJump 4 4 1) rfl).1 rfl,
   (C6_remove_from_load dbC6 1 9 false
      { mkJump 1 1 1 with load_id := some 1, is_manifested := true } rfl).2
     (by decide) (by decide)⟩

/-! ### Staff validation: the loop skips requirements that pass -/

/-- `_validate_staff_assignments` walks the requirement list in order; a
prefix in which every requirement passes (`passesStaffReq`) neither raises
nor changes what the remainder of the loop does. -/
theorem validateStaffList_append (db : DB) (jump : Jump) (load_id : Nat)
    (reserved : Bool) (sa : Option (List (Nat × Nat)))
    (pre rest : List AdditionalStaff)
    (h : ∀ r ∈ pre, passesStaffReq db jump load_id reserved sa r) :
    validateStaffList db jump load_id reserved sa (pre ++ rest)
      = validateStaffList db jump load_id reserved sa rest := by
  induction pre with
  | nil => rfl
  | cons r t ih =>
    have hr := h r (List.mem_cons_self r t)
    unfold passesStaffReq at hr
    rw [List.cons_append, validateStaffList]
    cases htg : truthyGet sa r.id with
    | none =>
      rw [htg] at hr
      simp only [htg, hr, ite_false, if_false]
      exact ih (fun x hx => h x (List.mem_cons_of_mem r hx))
    | some suid =>
      rw [htg] at hr
      obtain ⟨h1, h2, h3⟩ := hr
      simp only [htg]
      rw [if_neg (by simp [h1]), if_neg h2, if_neg (by rw [h3]; simp)]
      exact ih (fun x hx => h x (List.mem_cons_of_mem r hx))

/-! ### C7 — supplying the primary jump's own user as staff -/

/-- C7: whenever the pipeline reaches the staff-assignment validation (jump
and load resolve, the joined rows exist, the duplicate-user check passes,
every staff requirement before the offending one passes) and the
`staff_assignments` map supplies the primary jump's own user for some
requirement, `assign_to_load` fails with the 400 Conflict "Staff user
cannot be the same as the jump user".  The validation raises before
`_cleanup_existing_staff_jumps`, `_assign_jump_to_load` or
`_create_staff_jumps` run, and an `.error` result carries no store, so
nothing is created and the primary jump keeps its prior `load_id`,
`reserved` and `staff_assignments`. -/
theorem C7_own_user_staff_conflict
    (db : DB) (jump_id load_id : Nat) (reserved : Bool)
    (sa : Option (List (Nat × Nat))) (user_id : Nat)
    (jump : Jump) (load : Load) (ac : Aircraft) (jt : JumpType) (ju : User)
    (hj : getValidatedJump db jump_id = .ok jump)
    (hl : getValidatedLoad db load_id = .ok load)
    (hac : findAircraft db load.aircraft_id = some ac)
    (hjt : findJumpType db jump.jump_type_id = some jt)
    (hju : findUser db jump.user_id = some ju)
    (huc : validateUserConstraints db jump load_id = .ok ())
    (pre : List AdditionalStaff) (req : AdditionalStaff)
    (rest : List AdditionalStaff)
    (hsplit : jt.additional_staff = pre ++ req :: rest)
    (hpre : ∀ r ∈ pre, passesStaffReq db jump load_id reserved sa r)
    (hreq : truthyGet sa req.id = some jump.user_id) :
    assign_to_load db jump_id load_id reserved sa user_id
      = .error ⟨400, "Staff user cannot be the same as the jump user"⟩ := by
  rw [assign_to_load]
  simp only [hj, hl, hac, hjt, hju, huc]
  rw [hsplit, validateStaffList_append db jump load_id reserved sa pre (req :: rest) hpre]
  rw [validateStaffList]
  simp only [hreq, hju, Option.isSome_some]
  simp

/-- An unassigned jump (id 1, user 1) whose jump type 7 requires one staff
role; the staff map supplies user 1 — the jump's own user. -/
def dbC7 : DB :=
  { users := [⟨1, "Ann", "Ash"⟩, ⟨2, "Bea", "Bell"⟩],
    aircrafts := [⟨1, 4⟩],
    jump_types := [⟨7, [⟨1, "tandem_instructor", none⟩]⟩],
    loads := [mkLoad 1 1000 LoadStatus.FORMING 1 0],
    jumps := [mkJump 1 1 7],
    next_jump_id := 2 }

/-- Witness for `C7_own_user_staff_conflict` on `dbC7`. -/
theorem C7_own_user_staff_conflict_witness :
    assign_to_load dbC7 1 1 false (some [(1, 1)]) 9
      = .error ⟨400, "Staff user cannot be the same as the jump user"⟩ :=
  C7_own_user_staff_conflict dbC7 1 1 false (some [(1, 1)]) 9
    (mkJump 1 1 7) (mkLoad 1 1000 LoadStatus.FORMING 1 0) ⟨1, 4⟩
    ⟨7, [⟨1, "tandem_instructor", none⟩]⟩ ⟨1, "Ann", "Ash"⟩
    rfl rfl rfl rfl rfl rfl
    [] ⟨1, "tandem_instructor", none⟩ [] rfl (by simp) rfl

/-! ### C10 — identical re-assignment with the same staff user -/

/-- C10: a jump already on load L that is re-assigned to the same load with
the same `reserved` flag, supplying for some staff requirement a user S who
already holds a jump on L with that flag — in the claim's scenario the
dependent staff jump `d` left from the previous assignment — always fails
with the 400 Conflict "already has a ... jump in this load":
`_validate_staff_assignments` queries the live rows *before*
`_cleanup_existing_staff_jumps` deletes the old dependents, so the
identical re-assignment can never succeed. -/
theorem C10_identical_reassign_conflict
    (db : DB) (jump_id load_id : Nat) (reserved : Bool)
    (sa : Option (List (Nat × Nat))) (user_id : Nat)
    (jump : Jump) (load : Load) (ac : Aircraft) (jt : JumpType) (ju : User)
    (hj : getValidatedJump db jump_id = .ok jump)
    (hsame : jump.load_id = some load_id)
    (hl : getValidatedLoad db load_id = .ok load)
    (hac : findAircraft db load.aircraft_id = some ac)
    (hjt : findJumpType db jump.jump_type_id = some jt)
    (hju : findUser db jump.user_id = some ju)
    (pre : List AdditionalStaff) (req : AdditionalStaff)
    (rest : List AdditionalStaff)
    (hsplit : jt.additional_staff = pre ++ req :: rest)
    (hpre : ∀ r ∈ pre, passesStaffReq db jump load_id reserved sa r)
    (S : Nat) (hreq : truthyGet sa req.id = some S)
    (hS : (findUser db S).isSome = true)
    (hSne : S ≠ jump.user_id)
    (d : Jump) (hd : d ∈ db.jumps) (_hdp : d.parent_jump_id = some jump_id)
    (hdu : d.user_id = S) (hdl : d.load_id = some load_id)
    (hdr : d.reserved = reserved) :
    assign_to_load db jump_id load_id reserved sa user_id
      = .error ⟨400, staffConflictMsg S reserved⟩ := by
  have huc : validateUserConstraints db jump load_id = .ok () := by
    unfold validateUserConstraints
    rw [if_neg (by simp [hsame])]
  rw [assign_to_load]
  simp only [hj, hl, hac, hjt, hju, huc]
  rw [hsplit, validateStaffList_append db jump load_id reserved sa pre (req :: rest) hpre]
  rw [validateStaffList]
  simp only [hreq]
  have hfind : (db.jumps.find? (fun j =>
      decide (j.user_id = S ∧ j.load_id = some load_id ∧ j.reserved = reserved))).isSome
      = true := by
    rw [List.find?_isSome]
    exact ⟨d, hd, by simp [hdu, hdl, hdr]⟩
  rw [if_neg (by simp [hS]), if_neg hSne, if_pos hfind]

/-- Jump 1 (user 1, type 7 requiring one staff role) on load 1 with its
dependent staff jump 2 (user 2) from the previous assignment. -/
def dbC10 : DB :=
  { users := [⟨1, "Ann", "Ash"⟩, ⟨2, "Bea", "Bell"⟩],
    aircrafts := [⟨1, 4⟩],
    jump_types := [⟨7, [⟨1, "tandem_instructor", none⟩]⟩],
    loads := [mkLoad 1 1000 LoadStatus.FORMING 1 0],
    jumps :=
      [ { mkJump 1 1 7 with
          load_id := some 1
          is_manifested := true
          staff_assignments := some [(1, 2)] },
        { mkJump 2 2 7 with
          load_id := some 1
          parent_jump_id := some 1
          is_manifested := true } ],
    next_jump_id := 3 }

/-- Witness for `C10_identical_reassign_conflict` on `dbC10`: re-assigning
jump 1 to load 1 with the same `reserved` flag and the same staff user 2. -/
theorem C10_identical_reassign_conflict_witness :
    assign_to_load dbC10 1 1 false (some [(1, 2)]) 9
      = .error ⟨400, staffConflictMsg 2 false⟩ :=
  C10_identical_reassign_conflict dbC10 1 1 false (some [(1, 2)]) 9
    { mkJump 1 1 7 with
      load_id := some 1
      is_manifested := true
      staff_assignments := some [(1, 2)] }
    (mkLoad 1 1000 LoadStatus.FORMING 1 0) ⟨1, 4⟩
    ⟨7, [⟨1, "tandem_instructor", none⟩]⟩ ⟨1, "Ann", "Ash"⟩
    rfl rfl rfl rfl rfl rfl
    [] ⟨1, "tandem_instructor", none⟩ [] rfl (by simp)
    2 rfl rfl (by decide)
    { mkJump 2 2 7 with
      load_id := some 1
      parent_jump_id := some 1
      is_manifested := true }
    (by decide) rfl rfl rfl rfl

/-! ### C3 — capacity shortfall is advisory -/

/-- The capacity warning is never the empty string (it starts with
"Load has only "). -/
theorem capacityWarning_ne_empty (pool : String) (remaining required : Int) :
    capacityWarning pool remaining required ≠ "" := by
  unfold capacityWarning
  intro h
  have hlen := congrArg String.length h
  simp only [String.length_append] at hlen
  have h14 : (toString ("Load has only " : String)).length = 14 := rfl
  have h0 : ("" : String).length = 0 := rfl
  rw [h14, h0] at hlen
  omega

/-- C3: when the requested allocation would overrun the corresponding
remaining seat count (`remaining < required_spaces`), `assign_to_load` does
not fail on capacity grounds — provided the non-capacity validations pass
(they never read the seat counts), the call completes successfully and
carries a non-empty warning string.  The remaining count may go negative;
the witness replays the spec's overbooking scenario and exhibits
`remaining_reserved = -1`. -/
theorem C3_capacity_shortfall_warns
    (db : DB) (jump_id load_id : Nat) (reserved : Bool)
    (sa : Option (List (Nat × Nat))) (user_id : Nat)
    (jump : Jump) (load : Load) (ac : Aircraft) (jt : JumpType) (ju : User)
    (hj : getValidatedJump db jump_id = .ok jump)
    (hl : getValidatedLoad db load_id = .ok load)
    (hac : findAircraft db load.aircraft_id = some ac)
    (hjt : findJumpType db jump.jump_type_id = some jt)
    (hju : findUser db jump.user_id = some ju)
    (huc : validateUserConstraints db jump load_id = .ok ())
    (hst : validateStaffList db jump load_id reserved sa jt.additional_staff
      = .ok ())
    (hshort : (if reserved then remainingReserved db load
        else remainingPublic db load ac) < requiredSpaces jt) :
    ∃ db' res w,
      assign_to_load db jump_id load_id reserved sa user_id = .ok (db', res) ∧
      res.warning = some w ∧ w ≠ "" := by
  have hwarn : ∃ w, checkSpaceAvailability db load ac jt reserved = some w ∧ w ≠ "" := by
    unfold checkSpaceAvailability
    cases reserved with
    | true =>
      have hs : remainingReserved db load < requiredSpaces jt := by simpa using hshort
      exact ⟨capacityWarning "reserved" (remainingReserved db load) (requiredSpaces jt),
        by simp [hs], capacityWarning_ne_empty _ _ _⟩
    | false =>
      have hs : remainingPublic db load ac < requiredSpaces jt := by simpa using hshort
      exact ⟨capacityWarning "public" (remainingPublic db load ac) (requiredSpaces jt),
        by simp [hs], capacityWarning_ne_empty _ _ _⟩
  obtain ⟨w, hw, hwne⟩ := hwarn
  rw [assign_to_load]
  simp only [hj, hl, hac, hjt, hju, huc, hst]
  exact ⟨_, _, w, rfl, by simpa using hw, hwne⟩

/-- The spec's overbooking scenario mid-state: aircraft `max_load = 4`, load
with `reserved_spaces = 1`, jump A (user 1, no staff) already assigned
public; jump B (user 2, type 7 requiring one staff role) unassigned, to be
assigned reserved with staff user 3. -/
def dbC3 : DB :=
  { users := [⟨1, "Ann", "Ash"⟩, ⟨2, "Bea", "Bell"⟩, ⟨3, "Cal", "Cole"⟩],
    aircrafts := [⟨1, 4⟩],
    jump_types := [⟨1, []⟩, ⟨7, [⟨1, "tandem_instructor", none⟩]⟩],
    loads := [mkLoad 1 1000 LoadStatus.FORMING 1 1],
    jumps :=
      [ { mkJump 1 1 1 with load_id := some 1, is_manifested := true },
        mkJump 2 2 7 ],
    next_jump_id := 3 }

/-- Witness for `C3_capacity_shortfall_warns` on `dbC3` — the spec scenario:
assigning jump B reserved with 1 staff needs 2 reserved seats against
`remaining_reserved = 1`, so the hypothesis holds; the theorem yields
success with a non-empty warning, and evaluating the post-state spaces of
the resulting store (computed independently below) gives
`occupied_reserved = 2` and `remaining_reserved = -1`. -/
theorem C3_capacity_shortfall_warns_witness :
    (∃ db' res w,
      assign_to_load dbC3 2 1 true (some [(1, 3)]) 9 = .ok (db', res) ∧
      res.warning = some w ∧ w ≠ "") ∧
    (okDB (assign_to_load dbC3 2 1 true (some [(1, 3)]) 9)).map
        (fun db => (db.jumps.filter (fun j => j.load_id = some 1 ∧ j.reserved)).length)
      = some 2 ∧
    (okDB (assign_to_load dbC3 2 1 true (some [(1, 3)]) 9)).bind
        (fun db => (get_spaces_info db (mkLoad 1 1000 LoadStatus.FORMING 1 1)).map
          SpacesInfo.remaining_reserved_spaces)
      = some (-1) :=
  ⟨C3_capacity_shortfall_warns dbC3 2 1 true (some [(1, 3)]) 9
      (mkJump 2 2 7) (mkLoad 1 1000 LoadStatus.FORMING 1 1) ⟨1, 4⟩
      ⟨7, [⟨1, "tandem_instructor", none⟩]⟩ ⟨2, "Bea", "Bell"⟩
      rfl rfl rfl rfl rfl rfl rfl (by decide),
    by decide, by decide⟩

/-! ### Structure of `_create_staff_jumps` -/

/-- `_create_staff_jumps` appends one dependent row per requirement with a
(truthy) assigned user, never touching existing rows: the new rows carry
`parent_jump_id = jump.id` and the target load, their ids are the
consecutive autoincrement ids starting at the current `next_jump_id`, and
exactly the requirements with an assigned user produce a row. -/
theorem createStaffJumps_structure (jump : Jump) (juser : User) (load : Load)
    (reserved : Bool) (sa : Option (List (Nat × Nat))) (user_id : Nat) :
    ∀ (reqs : List AdditionalStaff) (db : DB),
      ∃ newJumps : List Jump,
        (createStaffJumps db jump juser load reserved sa user_id reqs).1.jumps
            = db.jumps ++ newJumps ∧
        newJumps.map Jump.id
            = (createStaffJumps db jump juser load reserved sa user_id reqs).2 ∧
        (∀ j ∈ newJumps, j.parent_jump_id = some jump.id ∧ j.load_id = some load.id) ∧
        (createStaffJumps db jump juser load reserved sa user_id reqs).2
            = List.range' db.next_jump_id
                (createStaffJumps db jump juser load reserved sa user_id reqs).2.length ∧
        (createStaffJumps db jump juser load reserved sa user_id reqs).2.length
            = (reqs.filter (fun q => (truthyGet sa q.id).isSome)).length := by
  intro reqs
  induction reqs with
  | nil =>
    intro db
    exact ⟨[], by simp [createStaffJumps], by simp [createStaffJumps],
      by simp, by simp [createStaffJumps], by simp [createStaffJumps]⟩
  | cons q rest ih =>
    intro db
    cases htg : truthyGet sa q.id with
    | none =>
      obtain ⟨nj, h1, h2, h3, h4, h5⟩ := ih db
      refine ⟨nj, ?_, ?_, h3, ?_, ?_⟩
      · simpa [createStaffJumps, htg] using h1
      · simpa [createStaffJumps, htg] using h2
      · simpa [createStaffJumps, htg] using h4
      · simp only [createStaffJumps, htg]
        rw [h5, List.filter_cons]
        simp [htg]
    | some suid =>
      obtain ⟨nj, h1, h2, h3, h4, h5⟩ :=
        ih { db with
          jumps := db.jumps
            ++ [newStaffJump db.next_jump_id jump juser load reserved user_id suid q]
          next_jump_id := db.next_jump_id + 1 }
      refine ⟨newStaffJump db.next_jump_id jump juser load reserved user_id suid q :: nj,
        ?_, ?_, ?_, ?_, ?_⟩
      · simp only [createStaffJumps, htg]
        rw [h1]
        simp
      · simp only [createStaffJumps, htg]
        rw [List.map_cons, h2]
        rfl
      · intro j hj
        rcases List.mem_cons.mp hj with rfl | hj'
        · exact ⟨rfl, rfl⟩
        · exact h3 j hj'
      · simp only [createStaffJumps, htg]
        rw [List.length_cons]
        rw [List.range'_succ]
        rw [← h4]
      · simp only [createStaffJumps, htg]
        rw [List.length_cons, h5, List.filter_cons]
        simp [htg]

/-- `dbAfterCleanup` never changes the autoincrement counter. -/
theorem dbAfterCleanup_next (db : DB) (jump : Jump) (jump_id load_id : Nat) :
    (dbAfterCleanup db jump jump_id load_id).next_jump_id = db.next_jump_id := by
  unfold dbAfterCleanup
  split <;> rfl

/-- With unique primary keys and a jump that is not its own parent, the
conditional cleanup never deletes the jump being assigned itself. -/
theorem mem_dbAfterCleanup (db : DB) (jump : Jump) (jump_id load_id : Nat)
    (hmem : jump ∈ db.jumps)
    (hnodup : (db.jumps.map Jump.id).Nodup)
    (hself : jump.parent_jump_id ≠ some jump_id) :
    jump ∈ (dbAfterCleanup db jump jump_id load_id).jumps := by
  unfold dbAfterCleanup
  split
  · unfold cleanupExistingStaffJumps
    refine List.mem_filter.mpr ⟨hmem, ?_⟩
    simp only [decide_not, Bool.not_eq_true', decide_eq_false_iff_not]
    intro hc
    replace hc : jump.id ∈ (getJumpsByParent db jump_id).map Jump.id := by
      simpa using hc
    obtain ⟨c, hcmem, hcid⟩ := List.mem_map.mp hc
    have hcfil : c ∈ db.jumps.filter (fun j => j.parent_jump_id = some jump_id) :=
      List.take_subset 100 _ hcmem
    obtain ⟨hcdb, hcpar⟩ := List.mem_filter.mp hcfil
    have hceq : c = jump :=
      List.inj_on_of_nodup_map hnodup hcdb hmem hcid
    apply hself
    rw [← hceq]
    simpa using hcpar
  · exact hmem

/-- The row substituted for the primary jump is a row of the updated
session. -/
theorem mem_dbWithPrimaryAssigned {dbx : DB} {jump : Jump} (jump1 : Jump)
    (h : jump ∈ dbx.jumps) :
    jump1 ∈ (dbWithPrimaryAssigned dbx jump jump1).jumps := by
  unfold dbWithPrimaryAssigned
  have := List.mem_map_of_mem (fun x => if x.id = jump.id then jump1 else x) h
  simpa using this

/-! ### C5 — one primary plus N dependents -/

/-- Jump 1 (user 1, type 7 requiring one staff role) on load 1 with its
dependent staff jump 2 (user 2); load 2 is empty. -/
def dbC5 : DB :=
  { users := [⟨1, "Ann", "Ash"⟩, ⟨2, "Bea", "Bell"⟩, ⟨3, "Cal", "Cole"⟩],
    aircrafts := [⟨1, 4⟩],
    jump_types := [⟨7, [⟨1, "tandem_instructor", none⟩]⟩],
    loads := [mkLoad 1 1000 LoadStatus.FORMING 1 0,
      mkLoad 2 2000 LoadStatus.FORMING 1 0],
    jumps :=
      [ { mkJump 1 1 7 with load_id := some 1, is_manifested := true },
        c6child 2 ],
    next_jump_id := 3 }

/-- C5 counterexample: jump 1's type requires N = 1 staff role, yet moving
the already-assigned jump 1 from load 1 to load 2 with no staff map
succeeds returning a single id, and only one jump (the primary) carries
the target `load_id` — not N+1 = 2.  The missing-staff requirement is
silently skipped for moves (`_validate_staff_assignments` only demands
staff when `jump.load_id` is null). -/
theorem C5_counterexample :
    (findJumpType dbC5 7).map (fun t => t.additional_staff.length) = some 1 ∧
    (okIds (assign_to_load dbC5 1 2 false none 9)).map List.length = some 1 ∧
    (okDB (assign_to_load dbC5 1 2 false none 9)).map
        (fun db => (db.jumps.filter (fun j => j.load_id = some 2)).length)
      = some 1 := by
  decide

/-- C5 amended: when `staff_assignments` supplies a (truthy) user for
*every* staff requirement and the pipeline validations pass, a successful
`assign_to_load` of a jump whose type requires N staff roles returns
exactly N+1 distinct ids led by the primary's; every returned id denotes a
row on the target load in the resulting store, and every returned id other
than the primary's denotes a created dependent with
`parent_jump_id = jump_id`.  (Well-formedness hypotheses: autoincrement
counter above all live ids, unique ids, jump not its own parent.) -/
theorem C5_full_staff_assignment
    (db : DB) (jump_id load_id : Nat) (reserved : Bool)
    (sa : Option (List (Nat × Nat))) (user_id : Nat)
    (jump : Jump) (load : Load) (ac : Aircraft) (jt : JumpType) (ju : User)
    (hj : getValidatedJump db jump_id = .ok jump)
    (hl : getValidatedLoad db load_id = .ok load)
    (hac : findAircraft db load.aircraft_id = some ac)
    (hjt : findJumpType db jump.jump_type_id = some jt)
    (hju : findUser db jump.user_id = some ju)
    (huc : validateUserConstraints db jump load_id = .ok ())
    (hst : validateStaffList db jump load_id reserved sa jt.additional_staff = .ok ())
    (hall : ∀ q ∈ jt.additional_staff, (truthyGet sa q.id).isSome = true)
    (hbound : ∀ j ∈ db.jumps, j.id < db.next_jump_id)
    (hnodup : (db.jumps.map Jump.id).Nodup)
    (hself : jump.parent_jump_id ≠ some jump_id) :
    ∃ db' res,
      assign_to_load db jump_id load_id reserved sa user_id = .ok (db', res) ∧
      res.assigned_jump_ids.length = jt.additional_staff.length + 1 ∧
      res.assigned_jump_ids.Nodup ∧
      res.assigned_jump_ids.head? = some jump_id ∧
      (∀ i ∈ res.assigned_jump_ids,
        ∃ j' ∈ db'.jumps, j'.id = i ∧ j'.load_id = some load_id) ∧
      (∀ i ∈ res.assigned_jump_ids, i ≠ jump_id →
        ∃ j' ∈ db'.jumps, j'.id = i ∧ j'.parent_jump_id = some jump_id ∧
          j'.load_id = some load_id) := by
  have hfindj := getValidatedJump_ok hj
  obtain ⟨hjmem, hjid⟩ := findJump_mem hfindj
  have hfindl := getValidatedLoad_ok hl
  obtain ⟨hlmem, hlid⟩ := findLoad_mem hfindl
  rw [assign_to_load]
  simp only [hj, hl, hac, hjt, hju, huc, hst]
  obtain ⟨nj, h1, h2, h3, h4, h5⟩ :=
    createStaffJumps_structure (assignJumpToLoad jump load reserved sa user_id)
      ju load reserved sa user_id jt.additional_staff
      (dbWithPrimaryAssigned (dbAfterCleanup db jump jump_id load_id) jump
        (assignJumpToLoad jump load reserved sa user_id))
  have hfilter : jt.additional_staff.filter (fun q => (truthyGet sa q.id).isSome)
      = jt.additional_staff := List.filter_eq_self.mpr hall
  have hnext2 : (dbWithPrimaryAssigned (dbAfterCleanup db jump jump_id load_id) jump
      (assignJumpToLoad jump load reserved sa user_id)).next_jump_id
      = db.next_jump_id := dbAfterCleanup_next db jump jump_id load_id
  have hjump1mem : assignJumpToLoad jump load reserved sa user_id
      ∈ (dbWithPrimaryAssigned (dbAfterCleanup db jump jump_id load_id) jump
        (assignJumpToLoad jump load reserved sa user_id)).jumps :=
    mem_dbWithPrimaryAssigned _ (mem_dbAfterCleanup db jump jump_id load_id hjmem hnodup hself)
  refine ⟨_, _, rfl, ?_, ?_, ?_, ?_, ?_⟩
  · simp only [List.length_cons, h5, hfilter]
  · refine List.nodup_cons.mpr ⟨?_, ?_⟩
    · intro hin
      rw [h4, hnext2] at hin
      have := (List.mem_range'_1.mp hin).1
      have hb := hbound jump hjmem
      omega
    · rw [h4]
      exact List.nodup_range' _ _
  · rfl
  · intro i hi
    rcases List.mem_cons.mp hi with rfl | hi'
    · refine ⟨assignJumpToLoad jump load reserved sa user_id, ?_, ?_, ?_⟩
      · rw [h1]
        exact List.mem_append_left _ hjump1mem
      · exact hjid
      · show some load.id = some load_id
        rw [hlid]
    · rw [← h2] at hi'
      obtain ⟨j', hj'mem, rfl⟩ := List.mem_map.mp hi'
      refine ⟨j', ?_, rfl, ?_⟩
      · rw [h1]
        exact List.mem_append_right _ hj'mem
      · rw [(h3 j' hj'mem).2, hlid]
  · intro i hi hne
    rcases List.mem_cons.mp hi with rfl | hi'
    · exact absurd rfl hne
    · rw [← h2] at hi'
      obtain ⟨j', hj'mem, rfl⟩ := List.mem_map.mp hi'
      refine ⟨j', ?_, rfl, ?_, ?_⟩
      · rw [h1]
        exact List.mem_append_right _ hj'mem
      · rw [(h3 j' hj'mem).1]
        show some jump.id = some jump_id
        rw [hjid]
      · rw [(h3 j' hj'mem).2, hlid]

/-- Witness for `C5_full_staff_assignment` on `dbC7` (fresh assignment of
jump 1, type 7 requiring one staff role, staff user 2 supplied). -/
theorem C5_full_staff_assignment_witness :
    ∃ db' res,
      assign_to_load dbC7 1 1 false (some [(1, 2)]) 9 = .ok (db', res) ∧
      res.assigned_jump_ids.length = 2 ∧
      res.assigned_jump_ids.Nodup ∧
      res.assigned_jump_ids.head? = some 1 ∧
      (∀ i ∈ res.assigned_jump_ids,
        ∃ j' ∈ db'.jumps, j'.id = i ∧ j'.load_id = some 1) ∧
      (∀ i ∈ res.assigned_jump_ids, i ≠ 1 →
        ∃ j' ∈ db'.jumps, j'.id = i ∧ j'.parent_jump_id = some 1 ∧
          j'.load_id = some 1) :=
  C5_full_staff_assignment dbC7 1 1 false (some [(1, 2)]) 9
    (mkJump 1 1 7) (mkLoad 1 1000 LoadStatus.FORMING 1 0) ⟨1, 4⟩
    ⟨7, [⟨1, "tandem_instructor", none⟩]⟩ ⟨1, "Ann", "Ash"⟩
    rfl rfl rfl rfl rfl rfl rfl
    (by decide) (by decide) (by decide) (by decide)

/-! ### C2 — the parent/dependent same-load invariant -/

/-- The claim's reachable-state invariant, decidably: every jump with a
parent link references an existing jump on the very same (non-null)
load. -/
def parentLinkInvariant (db : DB) : Bool :=
  db.jumps.all fun j =>
    match j.parent_jump_id with
    | none => true
    | some pid =>
      match findJump db pid with
      | none => false
      | some p => decide (p.load_id = j.load_id) && decide (j.load_id ≠ none)

/-- Initial store for the C2 counterexample: jump 1 (user 1, type 7
requiring one staff role) not yet assigned; loads 1 and 2 empty. -/
def db20 : DB :=
  { users := [⟨1, "Ann", "Ash"⟩, ⟨2, "Bea", "Bell"⟩, ⟨3, "Cal", "Cole"⟩],
    aircrafts := [⟨1, 4⟩],
    jump_types := [⟨7, [⟨1, "tandem_instructor", none⟩]⟩],
    loads := [mkLoad 1 1000 LoadStatus.FORMING 1 0,
      mkLoad 2 2000 LoadStatus.FORMING 1 0],
    jumps := [mkJump 1 1 7],
    next_jump_id := 2 }

/-- C2 counterexample: starting from `db20`, assigning jump 1 to load 1
with staff user 2 reaches a state satisfying the invariant; the further
assignment of jump 1 to load 2 (a reachable operation — staff may be
omitted on moves) succeeds but leaves the dependent jump pointing at
load 1 while its parent now sits on load 2, violating the invariant:
assigning an already-assigned parent jump to a different load does *not*
clean up the dependents on the old load
(`_cleanup_existing_staff_jumps` runs only when `jump.load_id ==
load_id`). -/
theorem C2_counterexample :
    (okDB (assign_to_load db20 1 1 false (some [(1, 2)]) 9)).map parentLinkInvariant
      = some true ∧
    ((okDB (assign_to_load db20 1 1 false (some [(1, 2)]) 9)).bind
        (fun db1 => okDB (assign_to_load db1 1 2 false none 9))).map parentLinkInvariant
      = some false ∧
    ((okDB (assign_to_load db20 1 1 false (some [(1, 2)]) 9)).bind
        (fun db1 => okDB (assign_to_load db1 1 2 false none 9))).map
        (fun db2 => decide (∃ j ∈ db2.jumps,
          j.parent_jump_id = some 1 ∧ j.load_id = some 1 ∧
          (findJump db2 1).map Jump.load_id = some (some 2)))
      = some true := by
  decide

/-- C2 amended: dependent jumps are created on their parent's load, and a
successful re-assignment of a jump to the load it is already on (with at
most 100 live dependents) leaves no dependent pointing anywhere else —
afterwards every jump with that `parent_jump_id` carries the target load.
The cross-load half of the original claim is false (see the
counterexample): moving a parent to a different load strands its old
dependents. -/
theorem C2_same_load_reassign_no_stale
    (db : DB) (jump_id load_id : Nat) (reserved : Bool)
    (sa : Option (List (Nat × Nat))) (user_id : Nat)
    (jump : Jump) (load : Load) (ac : Aircraft) (jt : JumpType) (ju : User)
    (hj : getValidatedJump db jump_id = .ok jump)
    (hsame : jump.load_id = some load_id)
    (hl : getValidatedLoad db load_id = .ok load)
    (hac : findAircraft db load.aircraft_id = some ac)
    (hjt : findJumpType db jump.jump_type_id = some jt)
    (hju : findUser db jump.user_id = some ju)
    (hst : validateStaffList db jump load_id reserved sa jt.additional_staff = .ok ())
    (hK : (db.jumps.filter (fun j => j.parent_jump_id = some jump_id)).length ≤ 100) :
    ∃ db' res,
      assign_to_load db jump_id load_id reserved sa user_id = .ok (db', res) ∧
      ∀ j ∈ db'.jumps, j.parent_jump_id = some jump_id → j.load_id = some load_id := by
  have hfindj := getValidatedJump_ok hj
  obtain ⟨hjmem, hjid⟩ := findJump_mem hfindj
  have hfindl := getValidatedLoad_ok hl
  obtain ⟨hlmem, hlid⟩ := findLoad_mem hfindl
  have huc : validateUserConstraints db jump load_id = .ok () := by
    unfold validateUserConstraints
    rw [if_neg (by simp [hsame])]
  rw [assign_to_load]
  simp only [hj, hl, hac, hjt, hju, huc, hst]
  obtain ⟨nj, h1, h2, h3, h4, h5⟩ :=
    createStaffJumps_structure (assignJumpToLoad jump load reserved sa user_id)
      ju load reserved sa user_id jt.additional_staff
      (dbWithPrimaryAssigned (dbAfterCleanup db jump jump_id load_id) jump
        (assignJumpToLoad jump load reserved sa user_id))
  refine ⟨_, _, rfl, ?_⟩
  intro j hjm
  rw [h1] at hjm
  rcases List.mem_append.mp hjm with hjm | hjm
  · have hdb1 : dbAfterCleanup db jump jump_id load_id
        = cleanupExistingStaffJumps db jump_id := by
      unfold dbAfterCleanup
      rw [if_pos hsame]
    unfold dbWithPrimaryAssigned at hjm
    simp only [hdb1] at hjm
    obtain ⟨j0, hj0, rfl⟩ := List.mem_map.mp hjm
    obtain ⟨hj0db, hkeep⟩ := List.mem_filter.mp hj0
    simp only [decide_not, Bool.not_eq_true', decide_eq_false_iff_not] at hkeep
    by_cases hid : j0.id = jump.id
    · rw [if_pos hid]
      intro _
      show some load.id = some load_id
      rw [hlid]
    · rw [if_neg hid]
      intro hpar
      exfalso
      apply hkeep
      have htake : getJumpsByParent db jump_id
          = db.jumps.filter (fun j => j.parent_jump_id = some jump_id) := by
        unfold getJumpsByParent
        exact List.take_of_length_le hK
      have hin : j0.id ∈ (getJumpsByParent db jump_id).map Jump.id := by
        rw [htake]
        exact List.mem_map_of_mem Jump.id
          (List.mem_filter.mpr ⟨hj0db, by simpa using hpar⟩)
      simpa using hin
  · intro _
    rw [(h3 j hjm).2, hlid]

/-- Witness for `C2_same_load_reassign_no_stale` on `dbC10`: jump 1 is
re-assigned to its own load 1 with the `reserved` flag flipped to `true`
and the same staff user 2; afterwards every dependent of jump 1 sits on
load 1. -/
theorem C2_same_load_reassign_no_stale_witness :
    ∃ db' res,
      assign_to_load dbC10 1 1 true (some [(1, 2)]) 9 = .ok (db', res) ∧
      ∀ j ∈ db'.jumps, j.parent_jump_id = some 1 → j.load_id = some 1 :=
  C2_same_load_reassign_no_stale dbC10 1 1 true (some [(1, 2)]) 9
    { mkJump 1 1 7 with
      load_id := some 1
      is_manifested := true
      staff_assignments := some [(1, 2)] }
    (mkLoad 1 1000 LoadStatus.FORMING 1 0) ⟨1, 4⟩
    ⟨7, [⟨1, "tandem_instructor", none⟩]⟩ ⟨1, "Ann", "Ash"⟩
    rfl rfl rfl rfl rfl rfl rfl (by decide)

end OpenSky
